import Mathlib

/-!
OLS Analysis Studio — shallow embedding of the TypeScript layer.

This file embeds, from the repository sources, the parts of the
application that the verified claims are about:

* `src/services/apiService.ts` — the bridge between the React frontend
  and the Python (PyScript) analysis core: `waitForPython`,
  `convertPyResult`, and the six exported operations `uploadFile`,
  `cleanData`, `getDescriptiveStats`, `generatePlots`, `runOlsAnalysis`,
  `endSession`.
* `src/components/AnalysisStep.tsx` — the analysis screen's state and its
  `handleRunAnalysis` callback, together with the state-updating events
  fired by its form controls.
* `src/App.tsx` — the application-level state, `resetState` and
  `handleEndSession`.

JavaScript numbers appearing in result payloads are modelled as `Rat`:
no claim performs arithmetic on them, they are only carried around and
compared structurally.  `null`/`undefined` results from the Python side
are modelled as `Option.none`.  Asynchronous execution is modelled by
passing the outcome of each awaited call as an explicit argument.
-/

/-- A cell of a dataset preview row: in `types.ts` a preview maps column
names to `string | number`. -/
inductive CellValue where
  | str (s : String)
  | num (q : Rat)
deriving DecidableEq, Repr

/-- The `ValidationResults` interface from `types.ts`. -/
structure ValidationResults where
  missing_data : List (String × Nat)
  type_mismatches : List (String × List Nat)
  categorical_flags : List String
deriving DecidableEq, Repr

/-- The `UploadResponse` interface from `types.ts`. -/
structure UploadResponse where
  session_token : String
  columns : List String
  validation_results : ValidationResults
  row_count : Nat
  preview : List (List (String × CellValue))
deriving DecidableEq, Repr

/-- The `CleanDataResponse` interface from `types.ts`. -/
structure CleanDataResponse where
  columns : List String
  preview : List (List (String × CellValue))
deriving DecidableEq, Repr

/-- The per-column record of `DescriptiveStats` from `types.ts`. -/
structure StatRecord where
  mean : Rat
  median : Rat
  std_dev : Rat
  min : Rat
  max : Rat
  skewness : Rat
  kurtosis : Rat
  outliers_count : Nat
deriving DecidableEq, Repr

/-- The `DescriptiveStats` interface from `types.ts`: an object indexed by variable name. -/
def DescriptiveStats : Type := List (String × StatRecord)

instance : DecidableEq DescriptiveStats := by
  unfold DescriptiveStats
  infer_instance

/-- The `PlotResponse` interface from `types.ts`. -/
structure PlotResponse where
  plot_urls : List String
deriving DecidableEq, Repr

/-- The per-term record of `OlsResult.coefficients` from `types.ts`. -/
structure CoefficientStats where
  coefficient : Rat
  std_error : Rat
  t_statistic : Rat
  p_value : Rat
deriving DecidableEq, Repr

/-- The `OlsResult` interface from `types.ts`. -/
structure OlsResult where
  model_name : String
  coefficients : List (String × CoefficientStats)
  r_squared : Rat
  adj_r_squared : Rat
  f_statistic : Rat
  f_p_value : Rat
  warnings : List String
deriving DecidableEq, Repr

/-- The `{ status: string }` result type of `endSession` in
`apiService.ts`. -/
structure EndResponse where
  status : String
deriving DecidableEq, Repr

/-- The `AppStep` enum from `types.ts`. -/
inductive AppStep where
  | UPLOAD
  | VALIDATION
  | ANALYSIS
deriving DecidableEq, Repr

/-- The `AnalysisTab` type of `AnalysisStep.tsx`. -/
inductive AnalysisTab where
  | stats
  | plots
  | ols
deriving DecidableEq, Repr

/-! The apiService bridge (`src/services/apiService.ts`)

A value returned by a `window.py*` entry point is modelled as
`Option (PyPayload α)`: `none` is JavaScript `null`/`undefined`, and a
present object carries an optional `error` field (`none` = the field is
absent/undefined) next to its typed payload. -/

/-- A non-null object returned from the Python side: an optional `error`
field plus the payload the caller will consume. -/
structure PyPayload (α : Type) where
  error : Option String
  value : α
deriving DecidableEq, Repr

/-- The helper `convertPyResult` from `apiService.ts`: `null`/`undefined` maps to
`null`; a plain object is returned as-is (the JSON round-trip applied to
a proxy is the identity on the plain data it produces). -/
def convertPyResult {α : Type} (pyResult : Option (PyPayload α)) :
    Option (PyPayload α) :=
  match pyResult with
  | none => none
  | some r => some r

/-- JavaScript truthiness of the `error` field: `undefined` and the empty
string are falsy, any other string is truthy. -/
def errorTruthy : Option String → Bool
  | none => false
  | some s => s ≠ ""

/-- Outcome of one exported API operation, at the caller interface. -/
inductive ApiOutcome (α : Type) where
  /-- the operation returned normally with this `jsResult` -/
  | ok (result : PyPayload α)
  /-- `throw new Error(jsResult.error)` -/
  | thrown (msg : String)
  /-- a `TypeError` from reading `.error` on a `null` result -/
  | typeError
  /-- the `null` result was returned, cast to the declared result type -/
  | nullReturn
deriving DecidableEq, Repr

/-- The error-handling tail shared by `uploadFile`, `cleanData` and
`endSession`: these read `jsResult.error` without optional chaining, so a
`null` converted result raises a `TypeError`. -/
def bridgeUnguarded {α : Type} (pyResult : Option (PyPayload α)) :
    ApiOutcome α :=
  match convertPyResult pyResult with
  | none => ApiOutcome.typeError
  | some jsResult =>
    if errorTruthy jsResult.error then
      ApiOutcome.thrown (jsResult.error.getD "")
    else
      ApiOutcome.ok jsResult

/-- The error-handling tail shared by `getDescriptiveStats`,
`generatePlots` and `runOlsAnalysis`: these read `jsResult?.error` with
optional chaining, so a `null` converted result falls through to the
`return jsResult as ...` line and is returned as-is. -/
def bridgeGuarded {α : Type} (pyResult : Option (PyPayload α)) :
    ApiOutcome α :=
  match convertPyResult pyResult with
  | none => ApiOutcome.nullReturn
  | some jsResult =>
    if errorTruthy jsResult.error then
      ApiOutcome.thrown (jsResult.error.getD "")
    else
      ApiOutcome.ok jsResult

/-- The poller `waitForPython` from `apiService.ts`, against a trace
`readyAt : Nat → Bool` of the values `window.pyAnalysisReady` takes at
successive polls (tick 0 is the synchronous check before the interval
starts).  `fuel` bounds how many polls we observe; the promise is still
pending (`none`) if readiness was not seen within the bound. -/
def waitForPython (readyAt : Nat → Bool) : Nat → Option Nat
  | 0 => none
  | n + 1 =>
    match waitForPython readyAt n with
    | some t => some t
    | none => if readyAt n then some n else none

/-- The environment one exported API operation runs against:
the readiness trace, whether the `window.py*` function is present, and
the value that function returns when called. -/
structure ApiEnv (α : Type) where
  readyAt : Nat → Bool
  fnLoaded : Bool
  pyResult : Option (PyPayload α)

/-- The observable execution of one exported API operation. -/
inductive OpTrace (α : Type) where
  /-- `waitForPython` never resolved within the observed polls -/
  | pending
  /-- threw `Python analysis module not loaded` -/
  | notLoaded
  /-- the Python entry point was invoked at poll tick `tick`, and the
  operation finished with `outcome` -/
  | called (tick : Nat) (outcome : ApiOutcome α)
deriving DecidableEq, Repr

/-- The shape shared by all six exported operations: await
`waitForPython`, check the `window.py*` function, call it, convert the
result, inspect the error field.  `guarded` selects between the
optional-chaining (`jsResult?.error`) and unguarded (`jsResult.error`)
variants. -/
def runOp {α : Type} (guarded : Bool) (env : ApiEnv α) (fuel : Nat) :
    OpTrace α :=
  match waitForPython env.readyAt fuel with
  | none => OpTrace.pending
  | some t =>
    if env.fnLoaded then
      OpTrace.called t
        (if guarded then bridgeGuarded env.pyResult
         else bridgeUnguarded env.pyResult)
    else
      OpTrace.notLoaded

/-- Operation `uploadFile` from `apiService.ts`. -/
def uploadFile (env : ApiEnv UploadResponse) (fuel : Nat)
    (_fileContent _fileName : String) : OpTrace UploadResponse :=
  runOp false env fuel

/-- Operation `cleanData` from `apiService.ts`. -/
def cleanData (env : ApiEnv CleanDataResponse) (fuel : Nat)
    (_sessionToken : String) : OpTrace CleanDataResponse :=
  runOp false env fuel

/-- Operation `getDescriptiveStats` from `apiService.ts`. -/
def getDescriptiveStats (env : ApiEnv DescriptiveStats) (fuel : Nat)
    (_sessionToken _dependentVar : String)
    (_independentVars : List String) : OpTrace DescriptiveStats :=
  runOp true env fuel

/-- Operation `generatePlots` from `apiService.ts`. -/
def generatePlots (env : ApiEnv PlotResponse) (fuel : Nat)
    (_sessionToken : String) (_variables : List String) :
    OpTrace PlotResponse :=
  runOp true env fuel

/-- Operation `runOlsAnalysis` from `apiService.ts`. -/
def runOlsAnalysis (env : ApiEnv OlsResult) (fuel : Nat)
    (_sessionToken _dependentVar : String)
    (_independentVars : List String) (_modelName : String) :
    OpTrace OlsResult :=
  runOp true env fuel

/-- Operation `endSession` from `apiService.ts`. -/
def endSession (env : ApiEnv EndResponse) (fuel : Nat)
    (_sessionToken : String) : OpTrace EndResponse :=
  runOp false env fuel

/-! The Python end-session handler (session lifecycle) -/

/-- Modelled from the spec: the Python handler behind
`window.pyEndSession` lives in `public/analysis.py`, which is not part of
the repository sources here.  Per the spec, `end_session(session_id)`
"discards all state for that id and is idempotent (ending an
already-ended or unknown session is a no-op, not an error, so callers can
always safely clean up)".  The session table is modelled as the list of
live session tokens; the handler removes the token and reports success
with no error field, whether or not the token was live. -/
def pyEndSession (sessions : List String) (tok : String) :
    List String × Option (PyPayload EndResponse) :=
  (sessions.filter (fun s => s ≠ tok),
   some { error := none, value := { status := "session_ended" } })

/-- Operation `endSession` composed with the (spec-modelled) Python handler, in the
loaded-and-ready execution: the session table after the call, and the
outcome observed by the caller. -/
def endSessionApp (sessions : List String) (tok : String) :
    List String × ApiOutcome EndResponse :=
  let (sessions', r) := pyEndSession sessions tok
  (sessions', bridgeUnguarded r)

/-! The analysis screen (`src/components/AnalysisStep.tsx`) -/

/-- The settled outcome of one awaited API promise, as observed by
`handleRunAnalysis`'s `try`/`catch`. -/
inductive ApiResult (α : Type) where
  | ok (value : α)
  | failed (msg : String)
deriving DecidableEq, Repr

/-- Returns `true` iff the promise fulfilled. -/
def ApiResult.isOk {α : Type} : ApiResult α → Bool
  | ApiResult.ok _ => true
  | ApiResult.failed _ => false

/-- A call issued to the apiService layer by `handleRunAnalysis`,
recording the arguments it was given. -/
inductive ApiCall where
  | getDescriptiveStats (sessionToken dependentVar : String)
      (independentVars : List String)
  | generatePlots (sessionToken : String) (vars : List String)
  | runOlsAnalysis (sessionToken dependentVar : String)
      (independentVars : List String) (modelName : String)
deriving DecidableEq, Repr

/-- The `useState` hooks of the `AnalysisStep` component. -/
structure AnalysisState where
  activeTab : AnalysisTab
  dependentVar : String
  independentVars : List String
  modelName : String
  stats : Option DescriptiveStats
  plots : Option PlotResponse
  olsModels : List OlsResult
  activeOlsModel : Option OlsResult
  isLoading : Bool
  error : Option String
deriving DecidableEq

/-- The initial `useState` values of `AnalysisStep`. -/
def initialAnalysisState : AnalysisState :=
  { activeTab := AnalysisTab.stats
    dependentVar := ""
    independentVars := []
    modelName := "Model_1"
    stats := none
    plots := none
    olsModels := []
    activeOlsModel := none
    isLoading := false
    error := none }

/-- The callback `handleRunAnalysis` from `AnalysisStep.tsx`, as a function of the
component state and the settled outcomes of the three awaited calls.
Returns the state after the callback finishes together with the list of
API calls it issued.  The three calls are issued via `Promise.all`; the
success updates (`setStats`, `setPlots`, the `olsModels` append,
`setActiveOlsModel`, `setModelName`, `setActiveTab`) run only after all
three fulfil, the `catch` sets the error message, and `finally` clears
`isLoading`. -/
def handleRunAnalysis (sessionToken : String) (s : AnalysisState)
    (statsR : ApiResult DescriptiveStats) (plotR : ApiResult PlotResponse)
    (olsR : ApiResult OlsResult) : AnalysisState × List ApiCall :=
  if s.dependentVar = "" ∨ s.independentVars = [] then
    ({ s with error := some ("Please select a dependent variable and at least one independent variable.") },
     [])
  else
    let calls :=
      [ApiCall.getDescriptiveStats sessionToken s.dependentVar
         s.independentVars,
       ApiCall.generatePlots sessionToken
         (s.dependentVar :: s.independentVars),
       ApiCall.runOlsAnalysis sessionToken s.dependentVar
         s.independentVars s.modelName]
    match statsR, plotR, olsR with
    | ApiResult.ok statsData, ApiResult.ok plotData, ApiResult.ok olsData =>
      ({ s with
          error := none
          isLoading := false
          stats := some statsData
          plots := some plotData
          olsModels := s.olsModels ++ [olsData]
          activeOlsModel := some olsData
          modelName := "Model_" ++ toString (s.olsModels.length + 2)
          activeTab := AnalysisTab.ols },
       calls)
    | _, _, _ =>
      ({ s with
          error := some ("An error occurred during analysis.")
          isLoading := false },
       calls)

/-- An event on the analysis screen.  `setDependentVar` comes from the
dependent-variable `Select` (options are `""` plus the cleaned columns);
`setIndependentVars` comes from the multi-select, whose rendered options
are `numericColumns.filter(c => c !== dependentVar)`, so a selection can
only consist of such options; `setModelName` is free text;
`runAnalysis` is a click on Run Analysis, with the settled outcomes of
the three API promises. -/
inductive UiEvent where
  | setDependentVar (v : String)
  | setIndependentVars (vs : List String)
  | setModelName (v : String)
  | runAnalysis (statsR : ApiResult DescriptiveStats)
      (plotR : ApiResult PlotResponse) (olsR : ApiResult OlsResult)

/-- One event step of the `AnalysisStep` component, for a session with
cleaned columns `columns` and token `sessionToken`.  The guards on the
two selection events encode which options the rendered form offers. -/
def analysisStep (columns : List String) (sessionToken : String)
    (s : AnalysisState) : UiEvent → AnalysisState × List ApiCall
  | UiEvent.setDependentVar v =>
    if v = "" ∨ v ∈ columns then ({ s with dependentVar := v }, [])
    else (s, [])
  | UiEvent.setIndependentVars vs =>
    if vs.all (fun c => c ∈ columns ∧ c ≠ s.dependentVar) then
      ({ s with independentVars := vs }, [])
    else (s, [])
  | UiEvent.setModelName v => ({ s with modelName := v }, [])
  | UiEvent.runAnalysis statsR plotR olsR =>
    handleRunAnalysis sessionToken s statsR plotR olsR

/-- Run a sequence of events on the analysis screen, collecting every API
call issued along the way. -/
def runEvents (columns : List String) (sessionToken : String)
    (s : AnalysisState) : List UiEvent → AnalysisState × List ApiCall
  | [] => (s, [])
  | e :: es =>
    let (s', cs) := analysisStep columns sessionToken s e
    let (s'', cs') := runEvents columns sessionToken s' es
    (s'', cs ++ cs')

/-! The application shell (`src/App.tsx`) -/

/-- The `useState` hooks of the `App` component (the animated
`loadingProgress` number is pure presentation and carries no claim). -/
structure AppState where
  step : AppStep
  isLoading : Bool
  error : Option String
  pythonReady : Bool
  sessionToken : Option String
  uploadData : Option UploadResponse
  cleanedData : Option CleanDataResponse
deriving DecidableEq

/-- The function `resetState` from `App.tsx`. -/
def resetState (s : AppState) : AppState :=
  { s with
      step := AppStep.UPLOAD
      isLoading := false
      error := none
      sessionToken := none
      uploadData := none
      cleanedData := none }

/-- The callback `handleEndSession` from `App.tsx`: when a session token is held it
first awaits `api.endSession` — with no `try`/`catch`, so a rejection
propagates and `resetState` never runs — and then resets the state.
`endR` is the settled outcome of that awaited call. -/
def handleEndSession (s : AppState) (endR : ApiResult EndResponse) :
    Except String AppState :=
  match s.sessionToken with
  | some _ =>
    match endR with
    | ApiResult.ok _ => Except.ok (resetState s)
    | ApiResult.failed m => Except.error m
  | none => Except.ok (resetState s)

/-! Sample data used by concrete runs and witnesses -/

/-- An empty descriptive-statistics response. -/
def sampleStats : DescriptiveStats := []

/-- An empty plot response. -/
def samplePlots : PlotResponse := { plot_urls := [] }

/-- A sample coefficient record. -/
def sampleCoefficient : CoefficientStats :=
  { coefficient := 3, std_error := 1, t_statistic := 3, p_value := 0 }

/-- A sample regression result carrying a given model name. -/
def sampleOlsNamed (n : String) : OlsResult :=
  { model_name := n
    coefficients := [("const", sampleCoefficient)]
    r_squared := 1
    adj_r_squared := 1
    f_statistic := 1
    f_p_value := 0
    warnings := [] }

/-- A sample regression result with the default model name. -/
def sampleOls : OlsResult := sampleOlsNamed ("Model_1")

/-- A sample upload response. -/
def sampleUpload : UploadResponse :=
  { session_token := "tok"
    columns := ["A", "B"]
    validation_results :=
      { missing_data := [], type_mismatches := [], categorical_flags := [] }
    row_count := 2
    preview := [] }

/-- A sample clean-data response. -/
def sampleClean : CleanDataResponse := { columns := ["A", "B"], preview := [] }

/-- An analysis state with a valid variable selection. -/
def readyAnalysisState : AnalysisState :=
  { initialAnalysisState with dependentVar := "A", independentVars := ["B"] }

/-! Helper lemmas about the apiService bridge -/

/-- Auxiliary: the poller resolves only at a tick where the readiness
flag held. -/
theorem waitForPython_resolves_ready (readyAt : Nat → Bool) :
    ∀ fuel t, waitForPython readyAt fuel = some t → readyAt t = true := by
  intro fuel
  induction fuel with
  | zero => intro t h; exact Option.noConfusion h
  | succ n ih =>
    intro t h
    unfold waitForPython at h
    cases hw : waitForPython readyAt n with
    | some t' =>
      rw [hw] at h
      injection h with h'
      subst h'
      exact ih _ hw
    | none =>
      rw [hw] at h
      by_cases hr : readyAt n = true
      · rw [if_pos hr] at h
        injection h with h'
        subst h'
        exact hr
      · rw [if_neg hr] at h
        exact Option.noConfusion h

/-- Auxiliary: a `runOp` execution that reached its Python call observed
readiness at the tick it resolved at. -/
theorem runOp_called_ready {α : Type} (g : Bool) (env : ApiEnv α)
    (fuel t : Nat) (o : ApiOutcome α)
    (h : runOp g env fuel = OpTrace.called t o) :
    env.readyAt t = true := by
  unfold runOp at h
  cases hw : waitForPython env.readyAt fuel with
  | none => rw [hw] at h; exact OpTrace.noConfusion h
  | some t' =>
    rw [hw] at h
    dsimp only at h
    by_cases hf : env.fnLoaded = true
    · rw [if_pos hf] at h
      simp only [OpTrace.called.injEq] at h
      obtain ⟨rfl, -⟩ := h
      exact waitForPython_resolves_ready env.readyAt fuel t' hw
    · rw [if_neg hf] at h
      exact OpTrace.noConfusion h

/-- Auxiliary: when the Python call of an operation returned a non-null
object, the outcome is governed by the object's `error` field alone. -/
theorem runOp_object_contract {α : Type} (g : Bool) (env : ApiEnv α)
    (fuel t : Nat) (o : ApiOutcome α) (e : Option String) (v : α)
    (hres : env.pyResult = some { error := e, value := v })
    (h : runOp g env fuel = OpTrace.called t o) :
    (∀ m, e = some m → m ≠ "" → o = ApiOutcome.thrown m) ∧
    (e = none → o = ApiOutcome.ok { error := e, value := v }) := by
  unfold runOp at h
  cases hw : waitForPython env.readyAt fuel with
  | none => rw [hw] at h; exact OpTrace.noConfusion h
  | some t' =>
    rw [hw] at h
    dsimp only at h
    by_cases hf : env.fnLoaded = true
    · rw [if_pos hf] at h
      simp only [OpTrace.called.injEq] at h
      obtain ⟨-, rfl⟩ := h
      constructor
      · rintro m rfl hne
        cases g <;>
          simp [bridgeGuarded, bridgeUnguarded, convertPyResult, hres,
            errorTruthy, hne]
      · rintro rfl
        cases g <;>
          simp [bridgeGuarded, bridgeUnguarded, convertPyResult, hres,
            errorTruthy]
    · rw [if_neg hf] at h
      exact OpTrace.noConfusion h

/-- Auxiliary: when the Python call of an operation returned
`null`/`undefined`, the outcome is a `TypeError` for the unguarded
operations and a `null` return for the optional-chaining ones. -/
theorem runOp_null_result {α : Type} (g : Bool) (env : ApiEnv α)
    (fuel t : Nat) (o : ApiOutcome α) (hres : env.pyResult = none)
    (h : runOp g env fuel = OpTrace.called t o) :
    o = if g then ApiOutcome.nullReturn else ApiOutcome.typeError := by
  unfold runOp at h
  cases hw : waitForPython env.readyAt fuel with
  | none => rw [hw] at h; exact OpTrace.noConfusion h
  | some t' =>
    rw [hw] at h
    dsimp only at h
    by_cases hf : env.fnLoaded = true
    · rw [if_pos hf] at h
      simp only [OpTrace.called.injEq] at h
      obtain ⟨-, rfl⟩ := h
      cases g <;> simp [bridgeGuarded, bridgeUnguarded, convertPyResult, hres]
    · rw [if_neg hf] at h
      exact OpTrace.noConfusion h

/-! Claim theorems -/

/-- C1: for every analysis run started by `handleRunAnalysis`, if any of
the three pipeline calls (`getDescriptiveStats`, `generatePlots`,
`runOlsAnalysis`) fails, then the session's model list `olsModels` is
left unchanged — no model is appended for that run — and an error
message is set instead of a result. -/
theorem c1_failed_run_leaves_models_unchanged
    (sessionToken : String) (s : AnalysisState)
    (statsR : ApiResult DescriptiveStats) (plotR : ApiResult PlotResponse)
    (olsR : ApiResult OlsResult)
    (hfail : statsR.isOk = false ∨ plotR.isOk = false ∨ olsR.isOk = false) :
    (handleRunAnalysis sessionToken s statsR plotR olsR).1.olsModels =
      s.olsModels ∧
    ∃ msg, (handleRunAnalysis sessionToken s statsR plotR olsR).1.error =
      some msg := by
  unfold handleRunAnalysis
  by_cases hg : s.dependentVar = "" ∨ s.independentVars = []
  · rw [if_pos hg]
    exact ⟨rfl, _, rfl⟩
  · rw [if_neg hg]
    cases statsR <;> cases plotR <;> cases olsR <;>
      simp_all [ApiResult.isOk]

/-- Witness for C1: a concrete run whose descriptive-statistics call
failed leaves the model list unchanged and sets an error message. -/
theorem c1_witness :
    ((ApiResult.failed ("boom") : ApiResult DescriptiveStats).isOk = false) ∧
    ((handleRunAnalysis ("tok") readyAnalysisState
        (ApiResult.failed ("boom")) (ApiResult.ok samplePlots)
        (ApiResult.ok sampleOls)).1.olsModels =
      readyAnalysisState.olsModels ∧
     ∃ msg, (handleRunAnalysis ("tok") readyAnalysisState
        (ApiResult.failed ("boom")) (ApiResult.ok samplePlots)
        (ApiResult.ok sampleOls)).1.error = some msg) :=
  ⟨rfl, c1_failed_run_leaves_models_unchanged ("tok") readyAnalysisState
    (ApiResult.failed ("boom")) (ApiResult.ok samplePlots)
    (ApiResult.ok sampleOls) (Or.inl rfl)⟩

/-- C3: every successful analysis run appends exactly one model to the
session's `olsModels`, and no run modifies any previously appended
model: each prior index holds the same model after the run. -/
theorem c3_runs_append_and_preserve
    (sessionToken : String) (s : AnalysisState)
    (statsR : ApiResult DescriptiveStats) (plotR : ApiResult PlotResponse)
    (olsR : ApiResult OlsResult) :
    (∀ statsData plotData olsData,
       statsR = ApiResult.ok statsData → plotR = ApiResult.ok plotData →
       olsR = ApiResult.ok olsData →
       ¬(s.dependentVar = "" ∨ s.independentVars = []) →
       (handleRunAnalysis sessionToken s statsR plotR olsR).1.olsModels =
         s.olsModels ++ [olsData]) ∧
    (∀ i : Nat, i < s.olsModels.length →
       (handleRunAnalysis sessionToken s statsR plotR olsR).1.olsModels[i]? =
         s.olsModels[i]?) := by
  constructor
  · rintro statsData plotData olsData rfl rfl rfl hg
    unfold handleRunAnalysis
    rw [if_neg hg]
  · intro i hi
    unfold handleRunAnalysis
    by_cases hg : s.dependentVar = "" ∨ s.independentVars = []
    · rw [if_pos hg]
    · rw [if_neg hg]
      cases statsR <;> cases plotR <;> cases olsR <;>
        simp [List.getElem?_append, hi]

/-- Witness for C3: a concrete successful run appends exactly the
returned model. -/
theorem c3_witness :
    ¬(readyAnalysisState.dependentVar = "" ∨
      readyAnalysisState.independentVars = []) ∧
    (handleRunAnalysis ("tok") readyAnalysisState (ApiResult.ok sampleStats)
       (ApiResult.ok samplePlots) (ApiResult.ok sampleOls)).1.olsModels =
      readyAnalysisState.olsModels ++ [sampleOls] :=
  ⟨by decide,
   (c3_runs_append_and_preserve ("tok") readyAnalysisState
      (ApiResult.ok sampleStats) (ApiResult.ok samplePlots)
      (ApiResult.ok sampleOls)).1 sampleStats samplePlots sampleOls
      rfl rfl rfl (by decide)⟩

/-- C6: `handleRunAnalysis` invokes the fit pipeline only when a
dependent variable is selected and the independent-variable list is
non-empty; with an empty selection no API call is made and an error
message is set, so `runOlsAnalysis` is never reached with an empty
independent-variable list from this caller. -/
theorem c6_guard_blocks_empty_selection
    (sessionToken : String) (s : AnalysisState)
    (statsR : ApiResult DescriptiveStats) (plotR : ApiResult PlotResponse)
    (olsR : ApiResult OlsResult) :
    ((s.dependentVar = "" ∨ s.independentVars = []) →
       (handleRunAnalysis sessionToken s statsR plotR olsR).2 = [] ∧
       (handleRunAnalysis sessionToken s statsR plotR olsR).1.error =
         some ("Please select a dependent variable and at least one independent variable.")) ∧
    (∀ tok dep indep name,
       ApiCall.runOlsAnalysis tok dep indep name ∈
         (handleRunAnalysis sessionToken s statsR plotR olsR).2 →
       indep ≠ []) := by
  constructor
  · intro hg
    unfold handleRunAnalysis
    rw [if_pos hg]
    exact ⟨rfl, rfl⟩
  · intro tok dep indep name hmem
    unfold handleRunAnalysis at hmem
    by_cases hg : s.dependentVar = "" ∨ s.independentVars = []
    · rw [if_pos hg] at hmem
      simp at hmem
    · rw [if_neg hg] at hmem
      push_neg at hg
      cases statsR <;> cases plotR <;> cases olsR <;>
        simp_all [List.mem_cons]

/-- Witness for C6: with nothing selected, a concrete run issues no API
call. -/
theorem c6_witness :
    (initialAnalysisState.dependentVar = "" ∨
     initialAnalysisState.independentVars = []) ∧
    (handleRunAnalysis ("tok") initialAnalysisState (ApiResult.ok sampleStats)
       (ApiResult.ok samplePlots) (ApiResult.ok sampleOls)).2 = [] :=
  ⟨Or.inl rfl,
   ((c6_guard_blocks_empty_selection ("tok") initialAnalysisState
      (ApiResult.ok sampleStats) (ApiResult.ok samplePlots)
      (ApiResult.ok sampleOls)).1 (Or.inl rfl)).1⟩

/-- Events for the C2 scenario: on columns `A`, `B` the user selects `B`
as an independent variable, then changes the dependent variable to `B`
(which only filters the rendered options, leaving the stored selection
untouched), then clicks Run Analysis with all three calls succeeding. -/
def staleSelectionEvents : List UiEvent :=
  [UiEvent.setIndependentVars ["B"],
   UiEvent.setDependentVar ("B"),
   UiEvent.runAnalysis (ApiResult.ok sampleStats) (ApiResult.ok samplePlots)
     (ApiResult.ok sampleOls)]

/-- C2 (refuted on the code): after the user changes the dependent
variable to a column already held in `independentVars`, the run issues a
`runOlsAnalysis` call whose independent-variable list contains the
dependent variable. -/
theorem c2_dependent_var_reaches_independent_list :
    ApiCall.runOlsAnalysis ("tok") ("B") ["B"] ("Model_1") ∈
      (runEvents ["A", "B"] ("tok") initialAnalysisState
        staleSelectionEvents).2 ∧
    ("B" : String) ∈ ["B"] := by
  constructor
  · decide
  · decide

/-- Events for the C7 scenario: two successful runs on columns `A`, `B`;
before the second run the user edits the model-name input back to
`Model_1`; the Python side names each returned model after the
`modelName` it was passed. -/
def duplicateNameEvents : List UiEvent :=
  [UiEvent.setDependentVar ("A"),
   UiEvent.setIndependentVars ["B"],
   UiEvent.runAnalysis (ApiResult.ok sampleStats) (ApiResult.ok samplePlots)
     (ApiResult.ok (sampleOlsNamed ("Model_1"))),
   UiEvent.setModelName ("Model_1"),
   UiEvent.runAnalysis (ApiResult.ok sampleStats) (ApiResult.ok samplePlots)
     (ApiResult.ok (sampleOlsNamed ("Model_1")))]

/-- C7 (refuted on the code): after the user edits the model name back
to `Model_1`, the session's model list holds two entries with the same
`model_name`. -/
theorem c7_duplicate_model_names :
    ((runEvents ["A", "B"] ("tok") initialAnalysisState
        duplicateNameEvents).1.olsModels.map OlsResult.model_name) =
      ["Model_1", "Model_1"] ∧
    ¬((runEvents ["A", "B"] ("tok") initialAnalysisState
        duplicateNameEvents).1.olsModels.map OlsResult.model_name).Nodup := by
  constructor
  · decide
  · decide

/-- C4: for every pipeline operation exported by the API bridge
(`uploadFile`, `cleanData`, `getDescriptiveStats`, `generatePlots`,
`runOlsAnalysis`, `endSession`), whenever the converted Python result is
an object carrying a truthy `error` field the operation throws an
`Error` carrying that message rather than returning the result, and
whenever the result carries no `error` field the operation returns the
converted result to the caller unmodified. -/
theorem c4_bridge_error_contract :
    (∀ (env : ApiEnv UploadResponse) (fuel : Nat) (fc fn : String)
       (t : Nat) (o : ApiOutcome UploadResponse) (e : Option String)
       (v : UploadResponse),
       env.pyResult = some { error := e, value := v } →
       uploadFile env fuel fc fn = OpTrace.called t o →
       (∀ m, e = some m → m ≠ "" → o = ApiOutcome.thrown m) ∧
       (e = none → o = ApiOutcome.ok { error := e, value := v })) ∧
    (∀ (env : ApiEnv CleanDataResponse) (fuel : Nat) (tok : String)
       (t : Nat) (o : ApiOutcome CleanDataResponse) (e : Option String)
       (v : CleanDataResponse),
       env.pyResult = some { error := e, value := v } →
       cleanData env fuel tok = OpTrace.called t o →
       (∀ m, e = some m → m ≠ "" → o = ApiOutcome.thrown m) ∧
       (e = none → o = ApiOutcome.ok { error := e, value := v })) ∧
    (∀ (env : ApiEnv DescriptiveStats) (fuel : Nat) (tok dep : String)
       (indep : List String) (t : Nat) (o : ApiOutcome DescriptiveStats)
       (e : Option String) (v : DescriptiveStats),
       env.pyResult = some { error := e, value := v } →
       getDescriptiveStats env fuel tok dep indep = OpTrace.called t o →
       (∀ m, e = some m → m ≠ "" → o = ApiOutcome.thrown m) ∧
       (e = none → o = ApiOutcome.ok { error := e, value := v })) ∧
    (∀ (env : ApiEnv PlotResponse) (fuel : Nat) (tok : String)
       (vs : List String) (t : Nat) (o : ApiOutcome PlotResponse)
       (e : Option String) (v : PlotResponse),
       env.pyResult = some { error := e, value := v } →
       generatePlots env fuel tok vs = OpTrace.called t o →
       (∀ m, e = some m → m ≠ "" → o = ApiOutcome.thrown m) ∧
       (e = none → o = ApiOutcome.ok { error := e, value := v })) ∧
    (∀ (env : ApiEnv OlsResult) (fuel : Nat) (tok dep : String)
       (indep : List String) (name : String) (t : Nat)
       (o : ApiOutcome OlsResult) (e : Option String) (v : OlsResult),
       env.pyResult = some { error := e, value := v } →
       runOlsAnalysis env fuel tok dep indep name = OpTrace.called t o →
       (∀ m, e = some m → m ≠ "" → o = ApiOutcome.thrown m) ∧
       (e = none → o = ApiOutcome.ok { error := e, value := v })) ∧
    (∀ (env : ApiEnv EndResponse) (fuel : Nat) (tok : String) (t : Nat)
       (o : ApiOutcome EndResponse) (e : Option String) (v : EndResponse),
       env.pyResult = some { error := e, value := v } →
       endSession env fuel tok = OpTrace.called t o →
       (∀ m, e = some m → m ≠ "" → o = ApiOutcome.thrown m) ∧
       (e = none → o = ApiOutcome.ok { error := e, value := v })) :=
  ⟨fun env fuel _ _ t o e v hres h =>
      runOp_object_contract false env fuel t o e v hres h,
   fun env fuel _ t o e v hres h =>
      runOp_object_contract false env fuel t o e v hres h,
   fun env fuel _ _ _ t o e v hres h =>
      runOp_object_contract true env fuel t o e v hres h,
   fun env fuel _ _ t o e v hres h =>
      runOp_object_contract true env fuel t o e v hres h,
   fun env fuel _ _ _ _ t o e v hres h =>
      runOp_object_contract true env fuel t o e v hres h,
   fun env fuel _ t o e v hres h =>
      runOp_object_contract false env fuel t o e v hres h⟩

/-- An environment whose Python result carries a truthy error field. -/
def errUploadEnv : ApiEnv UploadResponse :=
  { readyAt := fun _ => true
    fnLoaded := true
    pyResult := some { error := some ("bad request"), value := sampleUpload } }

/-- Witness for C4: a concrete `uploadFile` call whose result carries a
truthy error field throws that message. -/
theorem c4_witness :
    uploadFile errUploadEnv 1 ("x,y") ("d.csv") =
      OpTrace.called 0 (ApiOutcome.thrown ("bad request")) ∧
    (ApiOutcome.thrown ("bad request") : ApiOutcome UploadResponse) =
      ApiOutcome.thrown ("bad request") :=
  ⟨by decide,
   (c4_bridge_error_contract.1 errUploadEnv 1 ("x,y") ("d.csv") 0
      (ApiOutcome.thrown ("bad request")) (some ("bad request"))
      sampleUpload rfl (by decide)).1 ("bad request") rfl (by decide)⟩

/-- C5: ending a session is idempotent at the caller interface: calling
`endSession` twice with the same session token, or with an unknown or
already-ended token, does not raise — each call completes normally and
the second call is a no-op on the session table.  (The Python handler is
modelled from the spec; see `pyEndSession`.) -/
theorem c5_end_session_idempotent (sessions : List String) (tok : String) :
    (endSessionApp sessions tok).2 =
      ApiOutcome.ok { error := none, value := { status := "session_ended" } } ∧
    (endSessionApp (endSessionApp sessions tok).1 tok).2 =
      ApiOutcome.ok { error := none, value := { status := "session_ended" } } ∧
    (endSessionApp (endSessionApp sessions tok).1 tok).1 =
      (endSessionApp sessions tok).1 := by
  refine ⟨rfl, rfl, ?_⟩
  simp [endSessionApp, pyEndSession, List.filter_filter]

/-- Witness for C5: ending an unknown token twice completes normally
both times. -/
theorem c5_witness :
    (endSessionApp ["live"] ("gone")).2 =
      ApiOutcome.ok { error := none, value := { status := "session_ended" } } ∧
    (endSessionApp (endSessionApp ["live"] ("gone")).1 ("gone")).2 =
      ApiOutcome.ok { error := none, value := { status := "session_ended" } } :=
  ⟨(c5_end_session_idempotent ["live"] ("gone")).1,
   (c5_end_session_idempotent ["live"] ("gone")).2.1⟩

/-- C8: explicitly ending a session destroys all session-scoped state:
whenever `handleEndSession` completes normally, the resulting state has
step `UPLOAD` and `sessionToken`, `uploadData` and `cleanedData` all
null, from every state it is invoked in. -/
theorem c8_end_session_destroys_state (s : AppState)
    (endR : ApiResult EndResponse) (s' : AppState)
    (h : handleEndSession s endR = Except.ok s') :
    s'.step = AppStep.UPLOAD ∧ s'.sessionToken = none ∧
    s'.uploadData = none ∧ s'.cleanedData = none := by
  unfold handleEndSession at h
  cases hs : s.sessionToken with
  | none =>
    rw [hs] at h
    dsimp only at h
    cases h
    exact ⟨rfl, rfl, rfl, rfl⟩
  | some tok =>
    rw [hs] at h
    dsimp only at h
    cases endR with
    | ok v =>
      cases h
      exact ⟨rfl, rfl, rfl, rfl⟩
    | failed m => exact Except.noConfusion h

/-- A live application state holding a session and its artifacts. -/
def liveAppState : AppState :=
  { step := AppStep.ANALYSIS
    isLoading := false
    error := none
    pythonReady := true
    sessionToken := some ("tok")
    uploadData := some sampleUpload
    cleanedData := some sampleClean }

/-- Witness for C8: ending a concrete live session resets everything. -/
theorem c8_witness :
    handleEndSession liveAppState
      (ApiResult.ok { status := "session_ended" }) =
      Except.ok (resetState liveAppState) ∧
    ((resetState liveAppState).step = AppStep.UPLOAD ∧
     (resetState liveAppState).sessionToken = none ∧
     (resetState liveAppState).uploadData = none ∧
     (resetState liveAppState).cleanedData = none) :=
  ⟨rfl,
   c8_end_session_destroys_state liveAppState
     (ApiResult.ok { status := "session_ended" }) (resetState liveAppState)
     rfl⟩

/-- C9: no Python entry point is ever invoked before the runtime signals
readiness: `waitForPython` resolves only at a tick where
`pyAnalysisReady` is true, and every exported API operation reaches its
Python call only at such a tick. -/
theorem c9_no_python_call_before_ready :
    (∀ (readyAt : Nat → Bool) (fuel t : Nat),
       waitForPython readyAt fuel = some t → readyAt t = true) ∧
    (∀ (env : ApiEnv UploadResponse) (fuel : Nat) (fc fn : String)
       (t : Nat) (o : ApiOutcome UploadResponse),
       uploadFile env fuel fc fn = OpTrace.called t o →
       env.readyAt t = true) ∧
    (∀ (env : ApiEnv CleanDataResponse) (fuel : Nat) (tok : String)
       (t : Nat) (o : ApiOutcome CleanDataResponse),
       cleanData env fuel tok = OpTrace.called t o →
       env.readyAt t = true) ∧
    (∀ (env : ApiEnv DescriptiveStats) (fuel : Nat) (tok dep : String)
       (indep : List String) (t : Nat) (o : ApiOutcome DescriptiveStats),
       getDescriptiveStats env fuel tok dep indep = OpTrace.called t o →
       env.readyAt t = true) ∧
    (∀ (env : ApiEnv PlotResponse) (fuel : Nat) (tok : String)
       (vs : List String) (t : Nat) (o : ApiOutcome PlotResponse),
       generatePlots env fuel tok vs = OpTrace.called t o →
       env.readyAt t = true) ∧
    (∀ (env : ApiEnv OlsResult) (fuel : Nat) (tok dep : String)
       (indep : List String) (name : String) (t : Nat)
       (o : ApiOutcome OlsResult),
       runOlsAnalysis env fuel tok dep indep name = OpTrace.called t o →
       env.readyAt t = true) ∧
    (∀ (env : ApiEnv EndResponse) (fuel : Nat) (tok : String) (t : Nat)
       (o : ApiOutcome EndResponse),
       endSession env fuel tok = OpTrace.called t o →
       env.readyAt t = true) :=
  ⟨fun readyAt fuel t h => waitForPython_resolves_ready readyAt fuel t h,
   fun env fuel _ _ t o h => runOp_called_ready false env fuel t o h,
   fun env fuel _ t o h => runOp_called_ready false env fuel t o h,
   fun env fuel _ _ _ t o h => runOp_called_ready true env fuel t o h,
   fun env fuel _ _ t o h => runOp_called_ready true env fuel t o h,
   fun env fuel _ _ _ _ t o h => runOp_called_ready true env fuel t o h,
   fun env fuel _ t o h => runOp_called_ready false env fuel t o h⟩

/-- An environment that only becomes ready at tick 1. -/
def lateReadyEnv : ApiEnv EndResponse :=
  { readyAt := fun n => n == 1
    fnLoaded := true
    pyResult := some { error := none, value := { status := "session_ended" } } }

/-- Witness for C9: a concrete `endSession` run calls Python at tick 1,
where the readiness flag is true. -/
theorem c9_witness :
    endSession lateReadyEnv 3 ("tok") =
      OpTrace.called 1
        (ApiOutcome.ok
          { error := none, value := { status := "session_ended" } }) ∧
    lateReadyEnv.readyAt 1 = true :=
  ⟨by decide,
   c9_no_python_call_before_ready.2.2.2.2.2.2 lateReadyEnv 3 ("tok") 1
     (ApiOutcome.ok { error := none, value := { status := "session_ended" } })
     (by decide)⟩

/-- C10: when the Python layer returns a null or undefined result,
`convertPyResult` yields null, and the six API operations diverge:
`getDescriptiveStats`, `generatePlots` and `runOlsAnalysis` (optional
chaining on the error field) return null as their result, while
`uploadFile`, `cleanData` and `endSession` (unguarded error read) throw
a `TypeError` instead of a structured error. -/
theorem c10_null_result_divergence :
    (∀ (α : Type), convertPyResult (none : Option (PyPayload α)) = none) ∧
    (∀ (env : ApiEnv UploadResponse) (fuel : Nat) (fc fn : String)
       (t : Nat) (o : ApiOutcome UploadResponse), env.pyResult = none →
       uploadFile env fuel fc fn = OpTrace.called t o →
       o = ApiOutcome.typeError) ∧
    (∀ (env : ApiEnv CleanDataResponse) (fuel : Nat) (tok : String)
       (t : Nat) (o : ApiOutcome CleanDataResponse), env.pyResult = none →
       cleanData env fuel tok = OpTrace.called t o →
       o = ApiOutcome.typeError) ∧
    (∀ (env : ApiEnv EndResponse) (fuel : Nat) (tok : String) (t : Nat)
       (o : ApiOutcome EndResponse), env.pyResult = none →
       endSession env fuel tok = OpTrace.called t o →
       o = ApiOutcome.typeError) ∧
    (∀ (env : ApiEnv DescriptiveStats) (fuel : Nat) (tok dep : String)
       (indep : List String) (t : Nat) (o : ApiOutcome DescriptiveStats),
       env.pyResult = none →
       getDescriptiveStats env fuel tok dep indep = OpTrace.called t o →
       o = ApiOutcome.nullReturn) ∧
    (∀ (env : ApiEnv PlotResponse) (fuel : Nat) (tok : String)
       (vs : List String) (t : Nat) (o : ApiOutcome PlotResponse),
       env.pyResult = none →
       generatePlots env fuel tok vs = OpTrace.called t o →
       o = ApiOutcome.nullReturn) ∧
    (∀ (env : ApiEnv OlsResult) (fuel : Nat) (tok dep : String)
       (indep : List String) (name : String) (t : Nat)
       (o : ApiOutcome OlsResult), env.pyResult = none →
       runOlsAnalysis env fuel tok dep indep name = OpTrace.called t o →
       o = ApiOutcome.nullReturn) :=
  ⟨fun _ => rfl,
   fun env fuel _ _ t o hres h => runOp_null_result false env fuel t o hres h,
   fun env fuel _ t o hres h => runOp_null_result false env fuel t o hres h,
   fun env fuel _ t o hres h => runOp_null_result false env fuel t o hres h,
   fun env fuel _ _ _ t o hres h => runOp_null_result true env fuel t o hres h,
   fun env fuel _ _ t o hres h => runOp_null_result true env fuel t o hres h,
   fun env fuel _ _ _ _ t o hres h =>
     runOp_null_result true env fuel t o hres h⟩

/-- An environment whose Python call returns null, for the unguarded
`uploadFile`. -/
def nullUploadEnv : ApiEnv UploadResponse :=
  { readyAt := fun _ => true, fnLoaded := true, pyResult := none }

/-- An environment whose Python call returns null, for the guarded
`getDescriptiveStats`. -/
def nullStatsEnv : ApiEnv DescriptiveStats :=
  { readyAt := fun _ => true, fnLoaded := true, pyResult := none }

/-- Witness for C10: on a concrete null Python result, `uploadFile`
raises a `TypeError` while `getDescriptiveStats` returns the null. -/
theorem c10_witness :
    uploadFile nullUploadEnv 1 ("x,y") ("d.csv") =
      OpTrace.called 0 ApiOutcome.typeError ∧
    (ApiOutcome.typeError : ApiOutcome UploadResponse) =
      ApiOutcome.typeError ∧
    (ApiOutcome.nullReturn : ApiOutcome DescriptiveStats) =
      ApiOutcome.nullReturn :=
  ⟨by decide,
   c10_null_result_divergence.2.1 nullUploadEnv 1 ("x,y") ("d.csv") 0
     ApiOutcome.typeError rfl (by decide),
   c10_null_result_divergence.2.2.2.2.1 nullStatsEnv 1 ("tok") ("y") ["x"] 0
     ApiOutcome.nullReturn rfl (by decide)⟩
